import Mathlib

/-!
Verification of the hardware-synchronous control and calibration subsystem of
SBEMimage's dialog module (src/main_controls_dlg_windows.py): the stage
calibration engine, the approach (slice-cutting) sequencer, and the motor
stress tester. Real-valued quantities of the calibration arithmetic are
modelled over the reals; the motor test's arithmetic (sums, halving,
comparisons) is modelled over the rationals, which are closed under every
operation the code performs, and all motor-test theorems quantify over
arbitrary random streams, so they subsume any concrete float behaviour.
-/

namespace SBEMimage

/-! ## Calibration Engine (StageCalibrationDlg) -/

/-- The four stage-calibration parameters computed by
`StageCalibrationDlg.calculate_stage_parameters`. -/
structure StageParams where
  rot_x : ℝ
  rot_y : ℝ
  scale_x : ℝ
  scale_y : ℝ

/-- Transcription of `StageCalibrationDlg.calculate_stage_parameters`
(main_controls_dlg_windows.py lines 554-568): the deltas are the absolute
values of the current shift vectors, the rotations come from `atan` of the
component ratios, and the scale factors divide the known shift distance by
the vector norm scaled by the pixel size. -/
noncomputable def calculate_stage_parameters (x_shift_vector y_shift_vector : ℝ × ℝ)
    (shift pixel_size : ℝ) : StageParams :=
  let delta_xx := |x_shift_vector.1|
  let delta_xy := |x_shift_vector.2|
  let delta_yx := |y_shift_vector.1|
  let delta_yy := |y_shift_vector.2|
  { rot_x := Real.arctan (delta_xy / delta_xx)
    rot_y := Real.arctan (delta_yx / delta_yy)
    scale_x := shift / (Real.sqrt (delta_xx ^ 2 + delta_xy ^ 2) * pixel_size / 1000)
    scale_y := shift / (Real.sqrt (delta_yx ^ 2 + delta_yy ^ 2) * pixel_size / 1000) }

/-- The denominators of the four Python divisions performed by
`calculate_stage_parameters`, in evaluation order. Python raises
`ZeroDivisionError` when any of them is zero; this predicate records that a
division by zero is attempted on the given inputs. -/
def divisionByZeroOccurs (x_shift_vector y_shift_vector : ℝ × ℝ)
    (pixel_size : ℝ) : Prop :=
  |x_shift_vector.1| = 0 ∨ |y_shift_vector.2| = 0 ∨
    Real.sqrt (|x_shift_vector.1| ^ 2 + |x_shift_vector.2| ^ 2) * pixel_size / 1000 = 0 ∨
    Real.sqrt (|y_shift_vector.1| ^ 2 + |y_shift_vector.2| ^ 2) * pixel_size / 1000 = 0

/-- Result of the manual calibration entry point: either the input is rejected
with an error dialog before anything is computed, or parameters are computed. -/
inductive UserInputResult where
  | rejected
  | computed (p : StageParams)

/-- Transcription of
`StageCalibrationDlg.calculate_stage_parameters_from_user_input`
(lines 600-632): pixel distances are the absolute coordinate differences; if
either primary delta is zero the attempt is rejected with an error message,
otherwise the shift vectors are stored and `calculate_stage_parameters` runs. -/
noncomputable def calculate_stage_parameters_from_user_input
    (x1x x1y x2x x2y y1x y1y y2x y2y shift pixel_size : ℝ) : UserInputResult :=
  let delta_xx := |x1x - x2x|
  let delta_xy := |x1y - x2y|
  let delta_yx := |y1x - y2x|
  let delta_yy := |y1y - y2y|
  if delta_xx = 0 ∨ delta_yy = 0 then
    UserInputResult.rejected
  else
    UserInputResult.computed
      (calculate_stage_parameters (delta_xx, delta_xy) (delta_yx, delta_yy) shift pixel_size)

/-- Result of the automatic calibration completion handler: either the
registration exception is reported, or the parameter computation is entered. -/
inductive AutoResult where
  | exception_reported
  | computed (p : StageParams)

/-- Transcription of `StageCalibrationDlg.process_results` (lines 529-552),
the completion handler of the automatic acquisition thread: when the
registration step raised an exception it is reported, otherwise
`calculate_stage_parameters` is called directly on the measured shift
vectors — there is no check of the vector components before the call. -/
noncomputable def process_results (calc_exception : Option Unit)
    (x_shift_vector y_shift_vector : ℝ × ℝ) (shift pixel_size : ℝ) : AutoResult :=
  match calc_exception with
  | some _ => AutoResult.exception_reported
  | none =>
      AutoResult.computed
        (calculate_stage_parameters x_shift_vector y_shift_vector shift pixel_size)

/-- C1: for shift inputs whose primary displacement components are nonzero,
`calculate_stage_parameters` returns exactly
rot_x = atan(|dxy|/|dxx|), rot_y = atan(|dyx|/|dyy|),
scale_x = shift / (sqrt(dxx^2+dxy^2) * pixel_size / 1000) and symmetrically
for scale_y, where the norms are taken of the measured shift vectors. -/
theorem calculate_stage_parameters_formula (x_shift_vector y_shift_vector : ℝ × ℝ)
    (shift pixel_size : ℝ)
    (hx : x_shift_vector.1 ≠ 0) (hy : y_shift_vector.2 ≠ 0) :
    calculate_stage_parameters x_shift_vector y_shift_vector shift pixel_size =
      { rot_x := Real.arctan (|x_shift_vector.2| / |x_shift_vector.1|)
        rot_y := Real.arctan (|y_shift_vector.1| / |y_shift_vector.2|)
        scale_x := shift /
          (Real.sqrt (x_shift_vector.1 ^ 2 + x_shift_vector.2 ^ 2) * pixel_size / 1000)
        scale_y := shift /
          (Real.sqrt (y_shift_vector.1 ^ 2 + y_shift_vector.2 ^ 2) * pixel_size / 1000) } := by
  simp only [calculate_stage_parameters, sq_abs]

/-- Witness for C1 at the concrete shift vectors (3, 4) and (1, 2). -/
theorem calculate_stage_parameters_formula_witness :
    calculate_stage_parameters (3, 4) (1, 2) 500 10 =
      { rot_x := Real.arctan (|(4 : ℝ)| / |(3 : ℝ)|)
        rot_y := Real.arctan (|(1 : ℝ)| / |(2 : ℝ)|)
        scale_x := 500 / (Real.sqrt ((3 : ℝ) ^ 2 + (4 : ℝ) ^ 2) * 10 / 1000)
        scale_y := 500 / (Real.sqrt ((1 : ℝ) ^ 2 + (2 : ℝ) ^ 2) * 10 / 1000) } :=
  calculate_stage_parameters_formula (3, 4) (1, 2) 500 10
    (by norm_num) (by norm_num)

/-- C2 counterexample: on the automatic path (`process_results` with no
registration exception) a shift vector with zero primary component is not
rejected — the computation is entered and a division by zero is attempted,
refuting the claim that every calibration attempt rejects degenerate input
before computing. Concrete input: x_shift_vector = (0, 1),
y_shift_vector = (1, 1), shift = 500, pixel_size = 10. -/
theorem process_results_no_degenerate_guard :
    process_results none (0, 1) (1, 1) 500 10 =
      AutoResult.computed (calculate_stage_parameters (0, 1) (1, 1) 500 10) ∧
    process_results none (0, 1) (1, 1) 500 10 ≠ AutoResult.exception_reported ∧
    divisionByZeroOccurs (0, 1) (1, 1) 10 := by
  refine ⟨rfl, by simp [process_results], Or.inl ?_⟩
  simp

/-- C2 amended: only the manual entry point
(`calculate_stage_parameters_from_user_input`) rejects a zero primary
displacement component before any rotation or scale value is computed; the
automatic path performs no such check (see the counterexample). This theorem
proves the manual half: whenever either primary delta is zero, the attempt is
rejected. -/
theorem user_input_rejects_degenerate
    (x1x x1y x2x x2y y1x y1y y2x y2y shift pixel_size : ℝ)
    (hdeg : |x1x - x2x| = 0 ∨ |y1y - y2y| = 0) :
    calculate_stage_parameters_from_user_input
      x1x x1y x2x x2y y1x y1y y2x y2y shift pixel_size = UserInputResult.rejected := by
  simp only [calculate_stage_parameters_from_user_input, if_pos hdeg]

/-- Witness for the amended C2 theorem at a concrete degenerate input
(both point pairs share the x coordinate 5, so delta_xx = 0). -/
theorem user_input_rejects_degenerate_witness :
    calculate_stage_parameters_from_user_input
      5 0 5 7 1 2 3 4 500 10 = UserInputResult.rejected :=
  user_input_rejects_degenerate 5 0 5 7 1 2 3 4 500 10 (by norm_num)

/-- C9: the stage-parameter computation is deterministic (a function of its
inputs), and doubling the known shift distance together with the pixel size
leaves both scale factors unchanged. -/
theorem calculate_stage_parameters_scale_invariant
    (x_shift_vector y_shift_vector : ℝ × ℝ) (shift pixel_size : ℝ)
    (hx : x_shift_vector.1 ≠ 0) (hy : y_shift_vector.2 ≠ 0) :
    calculate_stage_parameters x_shift_vector y_shift_vector shift pixel_size =
      calculate_stage_parameters x_shift_vector y_shift_vector shift pixel_size ∧
    (calculate_stage_parameters x_shift_vector y_shift_vector
        (2 * shift) (2 * pixel_size)).scale_x =
      (calculate_stage_parameters x_shift_vector y_shift_vector shift pixel_size).scale_x ∧
    (calculate_stage_parameters x_shift_vector y_shift_vector
        (2 * shift) (2 * pixel_size)).scale_y =
      (calculate_stage_parameters x_shift_vector y_shift_vector shift pixel_size).scale_y := by
  refine ⟨rfl, ?_, ?_⟩ <;>
  · simp only [calculate_stage_parameters]
    rw [show ∀ d : ℝ, d * (2 * pixel_size) / 1000 = 2 * (d * pixel_size / 1000) by
          intro d; ring]
    exact mul_div_mul_left shift _ two_ne_zero

/-- Witness for C9 at the concrete shift vectors (3, 4) and (1, 2). -/
theorem calculate_stage_parameters_scale_invariant_witness :
    (calculate_stage_parameters (3, 4) (1, 2) (2 * 500) (2 * 10)).scale_x =
      (calculate_stage_parameters (3, 4) (1, 2) 500 10).scale_x :=
  (calculate_stage_parameters_scale_invariant (3, 4) (1, 2) 500 10
    (by norm_num) (by norm_num)).2.1

/-! ## Automatic calibration acquisition sequence -/

/-- The three images acquired by the automatic calibration procedure. -/
inductive CalibImage where
  | start_img
  | shift_x_img
  | shift_y_img
deriving DecidableEq

/-- Observable hardware actions of the acquisition thread. -/
inductive AcqEvent where
  | get_xy
  | acquire_frame (img : CalibImage)
  | move_to_xy (x y : ℝ)

/-- Transcription of the hardware interaction sequence of
`StageCalibrationDlg.stage_calibration_acq_thread` (lines 488-500): read the
start position, acquire the reference frame, move +shift along X, acquire,
move +shift along Y from the original position, acquire, restore the start
position. -/
def stage_calibration_acq_events (start_x start_y shift : ℝ) : List AcqEvent :=
  [AcqEvent.get_xy,
   AcqEvent.acquire_frame CalibImage.start_img,
   AcqEvent.move_to_xy (start_x + shift) start_y,
   AcqEvent.acquire_frame CalibImage.shift_x_img,
   AcqEvent.move_to_xy start_x (start_y + shift),
   AcqEvent.acquire_frame CalibImage.shift_y_img,
   AcqEvent.move_to_xy start_x start_y]

/-- C7: the automatic calibration acquisition performs exactly the sequence
read position, acquire reference, move to (x + shift, y), acquire X image,
move to (x, y + shift), acquire Y image, restore (x, y); in particular the
move preceding the Y-shift capture has x coordinate equal to the original
start_x, so the Y capture does not originate from the X-shifted position. -/
theorem stage_calibration_acq_sequence (start_x start_y shift : ℝ) :
    stage_calibration_acq_events start_x start_y shift =
      [AcqEvent.get_xy,
       AcqEvent.acquire_frame CalibImage.start_img,
       AcqEvent.move_to_xy (start_x + shift) start_y,
       AcqEvent.acquire_frame CalibImage.shift_x_img,
       AcqEvent.move_to_xy start_x (start_y + shift),
       AcqEvent.acquire_frame CalibImage.shift_y_img,
       AcqEvent.move_to_xy start_x start_y] ∧
    (stage_calibration_acq_events start_x start_y shift).get? 4 =
      some (AcqEvent.move_to_xy start_x (start_y + shift)) :=
  ⟨rfl, rfl⟩

/-! ## Approach Sequencer (ApproachDlg) -/

/-- Outcome state of an approach run: the slice counter, the aborted flag and
the z_mismatch flag of `ApproachDlg` after `approach_thread` returns. -/
structure ApproachOutcome where
  slice_counter : ℕ
  aborted : Bool
  z_mismatch : Bool
deriving DecidableEq

/-- The approach loop of `ApproachDlg.approach_thread` (lines 2327-2358).
`moveErr c` and `cutErr c` are the hardware error-register values observed
after the z move and after the cut of the cycle that starts with
`slice_counter = c`; `userAbort c` says whether the operator abort flag is
set when the loop condition is checked with `slice_counter = c`. The fuel
argument is `max_slices - slice_counter`, so the loop exits normally at fuel
zero. Returns the final slice counter and aborted flag; on a fault the loop
breaks before the increment of the faulting cycle. -/
def approach_loop (moveErr cutErr : ℕ → ℕ) (userAbort : ℕ → Bool) :
    ℕ → ℕ → ℕ × Bool
  | 0, c => (c, false)
  | fuel + 1, c =>
    if userAbort c then (c, true)
    else if 0 < moveErr c then (c, true)
    else if 0 < cutErr c then (c, true)
    else approach_loop moveErr cutErr userAbort fuel (c + 1)

/-- Transcription of `ApproachDlg.approach_thread` (lines 2291-2361).
Before the loop: a twice-failed z read aborts; error register 206 after the
z read sets z_mismatch and aborts; a knife-near error aborts. The loop body
only ever sets `aborted`, never `z_mismatch`. -/
def approach_thread (zReadFailsTwice err206AfterZRead : Bool) (nearKnifeErr : ℕ)
    (moveErr cutErr : ℕ → ℕ) (userAbort : ℕ → Bool) (max_slices : ℕ) :
    ApproachOutcome :=
  let pre_aborted := zReadFailsTwice || err206AfterZRead
  if pre_aborted then
    { slice_counter := 0, aborted := true, z_mismatch := err206AfterZRead }
  else if 0 < nearKnifeErr then
    { slice_counter := 0, aborted := true, z_mismatch := err206AfterZRead }
  else
    let r := approach_loop moveErr cutErr userAbort max_slices 0
    { slice_counter := r.1, aborted := r.2, z_mismatch := err206AfterZRead }

/-- Observable actions of `ApproachDlg.finish_approach`. -/
inductive FinishEvent where
  | clear_knife
  | clear_knife_error_report
  | report_completed (total_slices : ℕ)
  | report_z_mismatch
  | report_aborted (slices_done : ℕ)
deriving DecidableEq

/-- The outcome report chosen by the if/elif/else of
`ApproachDlg.finish_approach` (lines 2257-2283): completed when not aborted,
the Z-mismatch warning when z_mismatch is set, otherwise the partial-abort
report carrying the slice counter. -/
def outcome_report (o : ApproachOutcome) (max_slices : ℕ) : FinishEvent :=
  if !o.aborted then FinishEvent.report_completed max_slices
  else if o.z_mismatch then FinishEvent.report_z_mismatch
  else FinishEvent.report_aborted o.slice_counter

/-- Transcription of `ApproachDlg.finish_approach` (lines 2244-2283), run on
every exit of the approach thread: clear the knife first; if the error
register is set afterwards, report the clearing failure and reset the
register; then report the run outcome. -/
def finish_approach (o : ApproachOutcome) (max_slices clearKnifeErr : ℕ) :
    List FinishEvent :=
  [FinishEvent.clear_knife] ++
    (if 0 < clearKnifeErr then [FinishEvent.clear_knife_error_report] else []) ++
    [outcome_report o max_slices]

/-- Helper predicate: is this finish event the knife-clear command? -/
def is_clear_knife : FinishEvent → Bool
  | FinishEvent.clear_knife => true
  | _ => false

/-- The outcome report is never the knife-clear command itself. -/
theorem is_clear_knife_outcome_report (o : ApproachOutcome) (max_slices : ℕ) :
    is_clear_knife (outcome_report o max_slices) = false := by
  unfold outcome_report
  split
  · rfl
  · split <;> rfl

/-- If the loop runs fault-free and abort-free for the cycles starting at
counters c, c+1, …, c+k-1 and the cycle starting at counter c+k observes a
move fault (with fuel left), the loop stops with counter c+k and the aborted
flag set: the faulting cycle never increments the counter. -/
theorem approach_loop_halts_at_fault (moveErr cutErr : ℕ → ℕ) (userAbort : ℕ → Bool)
    (k : ℕ) :
    ∀ fuel c,
      (∀ j, j < k → userAbort (c + j) = false ∧ moveErr (c + j) = 0 ∧ cutErr (c + j) = 0) →
      userAbort (c + k) = false → 0 < moveErr (c + k) → k < fuel →
      approach_loop moveErr cutErr userAbort fuel c = (c + k, true) := by
  induction k with
  | zero =>
    intro fuel c _ hub hfault hk
    cases fuel with
    | zero => exact (Nat.not_lt_zero _ hk).elim
    | succ fuel =>
      rw [Nat.add_zero] at hub hfault
      simp [approach_loop, hub, hfault]
  | succ k ih =>
    intro fuel c hclean hub hfault hk
    cases fuel with
    | zero => exact (Nat.not_lt_zero _ hk).elim
    | succ fuel =>
      obtain ⟨hu0, hm0, hc0⟩ := hclean 0 (Nat.succ_pos k)
      rw [Nat.add_zero] at hu0 hm0 hc0
      have step : approach_loop moveErr cutErr userAbort (fuel + 1) c =
          approach_loop moveErr cutErr userAbort fuel (c + 1) := by
        simp [approach_loop, hu0, hm0, hc0]
      have hclean1 : ∀ j, j < k →
          userAbort (c + 1 + j) = false ∧ moveErr (c + 1 + j) = 0 ∧
            cutErr (c + 1 + j) = 0 := by
        intro j hj
        have e : c + 1 + j = c + (j + 1) := by omega
        rw [e]
        exact hclean (j + 1) (by omega)
      have hub1 : userAbort (c + 1 + k) = false := by
        have e : c + 1 + k = c + (k + 1) := by omega
        rw [e]; exact hub
      have hfault1 : 0 < moveErr (c + 1 + k) := by
        have e : c + 1 + k = c + (k + 1) := by omega
        rw [e]; exact hfault
      rw [step, ih fuel (c + 1) hclean1 hub1 hfault1 (by omega)]
      have e : c + 1 + k = c + (k + 1) := by omega
      rw [e]

/-- C3 counterexample: error 206 injected by the z move of cycle 3 of 5 (the
cycle that starts with slice_counter = 2), clean start, no user abort. The
run halts with slice_counter = 2 as the claim says, but z_mismatch stays
false and the outcome is reported as the generic partial abort, not as a
Z-position mismatch — refuting the claim's fault classification. -/
theorem approach_206_in_loop_reported_generic :
    approach_thread false false 0 (fun c => if c = 2 then 206 else 0) (fun _ => 0)
        (fun _ => false) 5 =
      { slice_counter := 2, aborted := true, z_mismatch := false } ∧
    outcome_report
        (approach_thread false false 0 (fun c => if c = 2 then 206 else 0) (fun _ => 0)
          (fun _ => false) 5) 5 = FinishEvent.report_aborted 2 ∧
    outcome_report
        (approach_thread false false 0 (fun c => if c = 2 then 206 else 0) (fun _ => 0)
          (fun _ => false) 5) 5 ≠ FinishEvent.report_z_mismatch := by
  refine ⟨by decide, by decide, by decide⟩

/-- C3 amended: if the cycles before cycle k+1 are fault-free and the z move
of cycle k+1 observes a hardware fault (any nonzero error register value,
206 included), the loop halts before that cycle's increment, so the slice
counter ends at k and partial progress is preserved; but the fault is
reported as the generic partial abort (z_mismatch stays false) — the
Z-mismatch classification applies only to error 206 observed during the
initial z-position read before the loop. -/
theorem approach_fault_halts_before_increment (moveErr cutErr : ℕ → ℕ)
    (userAbort : ℕ → Bool) (max_slices k : ℕ)
    (hclean : ∀ j, j < k → userAbort j = false ∧ moveErr j = 0 ∧ cutErr j = 0)
    (hub : userAbort k = false) (hfault : 0 < moveErr k) (hk : k < max_slices) :
    approach_thread false false 0 moveErr cutErr userAbort max_slices =
      { slice_counter := k, aborted := true, z_mismatch := false } ∧
    outcome_report (approach_thread false false 0 moveErr cutErr userAbort max_slices)
        max_slices = FinishEvent.report_aborted k := by
  have hl := approach_loop_halts_at_fault moveErr cutErr userAbort k max_slices 0
      (by simpa using hclean) (by simpa using hub) (by simpa using hfault) hk
  rw [Nat.zero_add] at hl
  constructor
  · simp [approach_thread, hl]
  · simp [approach_thread, outcome_report, hl]

/-- Witness for the amended C3 theorem: fault value 5 injected on cycle 2 of
a 3-slice run halts with slice counter 1. -/
theorem approach_fault_halts_witness :
    approach_thread false false 0 (fun c => if c = 1 then 5 else 0) (fun _ => 0)
        (fun _ => false) 3 =
      { slice_counter := 1, aborted := true, z_mismatch := false } :=
  (approach_fault_halts_before_increment (fun c => if c = 1 then 5 else 0) (fun _ => 0)
    (fun _ => false) 3 1 (by decide) (by decide) (by decide) (by decide)).1

/-- C8: on every exit of the approach thread — completion, user abort, or
hardware fault, under any hardware behaviour — the cleanup performs the
knife-clear exactly once; if the clear itself fails the failure is reported;
and the last event is always the report of the original run outcome, so a
cleanup failure never masks it. -/
theorem finish_approach_cleanup_and_report (zReadFailsTwice err206AfterZRead : Bool)
    (nearKnifeErr : ℕ) (moveErr cutErr : ℕ → ℕ) (userAbort : ℕ → Bool)
    (max_slices clearKnifeErr : ℕ) :
    (finish_approach
        (approach_thread zReadFailsTwice err206AfterZRead nearKnifeErr
          moveErr cutErr userAbort max_slices) max_slices clearKnifeErr).countP
        is_clear_knife = 1 ∧
    (0 < clearKnifeErr → FinishEvent.clear_knife_error_report ∈
      finish_approach
        (approach_thread zReadFailsTwice err206AfterZRead nearKnifeErr
          moveErr cutErr userAbort max_slices) max_slices clearKnifeErr) ∧
    (finish_approach
        (approach_thread zReadFailsTwice err206AfterZRead nearKnifeErr
          moveErr cutErr userAbort max_slices) max_slices clearKnifeErr).getLast? =
      some (outcome_report
        (approach_thread zReadFailsTwice err206AfterZRead nearKnifeErr
          moveErr cutErr userAbort max_slices) max_slices) := by
  set o := approach_thread zReadFailsTwice err206AfterZRead nearKnifeErr
    moveErr cutErr userAbort max_slices
  refine ⟨?_, ?_, ?_⟩
  · by_cases h : 0 < clearKnifeErr <;>
      simp [finish_approach, h, List.countP_append, List.countP_cons,
        is_clear_knife_outcome_report, show is_clear_knife FinishEvent.clear_knife = true
          from rfl, show is_clear_knife FinishEvent.clear_knife_error_report = false
          from rfl]
  · intro h
    simp [finish_approach, h]
  · by_cases h : 0 < clearKnifeErr <;> simp [finish_approach, h]

/-- Witness for C8 with a failing knife-clear (error value 1) after a clean
two-slice run: the cleanup failure is reported. -/
theorem finish_approach_cleanup_witness :
    FinishEvent.clear_knife_error_report ∈
      finish_approach
        (approach_thread false false 0 (fun _ => 0) (fun _ => 0) (fun _ => false) 2)
        2 1 :=
  (finish_approach_cleanup_and_report false false 0 (fun _ => 0) (fun _ => 0)
    (fun _ => false) 2 1).2.1 (by decide)

/-! ## Motor Stress Tester (MotorTestDlg) -/

/-- An XYZ stage position of the random walk. -/
structure WalkPos where
  x : ℚ
  y : ℚ
  z : ℚ
deriving DecidableEq

/-- Observable actions of one motor-test run: the position line written to
the log file, the two hardware move commands, the per-iteration outcome
lines, and the final summary line. -/
inductive MotorEvent where
  | log_pos (x y z : ℚ)
  | move_xy (x y : ℚ)
  | move_z (z : ℚ)
  | log_xy_error
  | log_z_error
  | log_ok
  | log_summary (n : ℕ)
deriving DecidableEq

/-- The XY displacement scale of iteration n: a longer move (300) every
10th cycle, 50 otherwise. -/
def motor_step_dist (n : ℕ) : ℚ :=
  if n % 10 = 0 then 300 else 50

/-- The z clamp of `random_walk_thread`: a computed z below zero is stored
as zero. -/
def clamp_z (z : ℚ) : ℚ :=
  if z < 0 then 0 else z

/-- The raw z displacement of iteration n: a random perturbation of
magnitude 0.2 on even iterations, the fixed increment 0.025 on odd ones. -/
def motor_step_z0 (rand : ℕ → ℚ) (n : ℕ) (p : WalkPos) : ℚ :=
  if n % 2 = 0 then p.z + (rand (3 * n + 2) - 1 / 2) * (1 / 5)
  else p.z + 1 / 40

/-- The position update of one iteration of
`MotorTestDlg.random_walk_thread` (lines 2776-2795). `rand` is the stream of
values returned by successive `random()` calls (three slots reserved per
iteration, for x, y and optionally z); iteration n adds the random XY
displacement, adds the z displacement, clamps a negative z to 0, and resets
to (0, 0, start_z) when the resulting position leaves the permissible
range. -/
def motor_step_pos (start_z : ℚ) (rand : ℕ → ℚ) (n : ℕ) (p : WalkPos) : WalkPos :=
  let x := p.x + (rand (3 * n) - 1 / 2) * motor_step_dist n
  let y := p.y + (rand (3 * n + 1) - 1 / 2) * motor_step_dist n
  let z1 := clamp_z (motor_step_z0 rand n p)
  if 600 < |x| ∨ 600 < |y| ∨ 600 < z1 then
    { x := 0, y := 0, z := start_z }
  else
    { x := x, y := y, z := z1 }

/-- One full iteration of `MotorTestDlg.random_walk_thread` (lines
2776-2818): compute the new position, write it to the log, command the XY
move; on an XY error log it, count it and skip the Z move entirely;
otherwise command the Z move and log either the Z error or OK. `xyErr n` and
`zErr n` are the error-register values observed after the respective moves
of iteration n. Returns the new position, the error-count increment and the
iteration's events. -/
def motor_step (start_z : ℚ) (rand : ℕ → ℚ) (xyErr zErr : ℕ → ℕ) (n : ℕ)
    (p : WalkPos) : WalkPos × ℕ × List MotorEvent :=
  let q := motor_step_pos start_z rand n p
  if 0 < xyErr n then
    (q, 1, [MotorEvent.log_pos q.x q.y q.z, MotorEvent.move_xy q.x q.y,
            MotorEvent.log_xy_error])
  else if 0 < zErr n then
    (q, 1, [MotorEvent.log_pos q.x q.y q.z, MotorEvent.move_xy q.x q.y,
            MotorEvent.move_z q.z, MotorEvent.log_z_error])
  else
    (q, 0, [MotorEvent.log_pos q.x q.y q.z, MotorEvent.move_xy q.x q.y,
            MotorEvent.move_z q.z, MotorEvent.log_ok])

/-- The iteration loop of `MotorTestDlg.random_walk_thread`, with the
poll-based termination abstracted by the iteration count: the loop runs
`iters` iterations from iteration number n, position p and accumulated error
count errs, then writes the summary line carrying the final error count.
Returns the event trace and the final error count. -/
def motor_run_aux (start_z : ℚ) (rand : ℕ → ℚ) (xyErr zErr : ℕ → ℕ) :
    ℕ → ℕ → WalkPos → ℕ → List MotorEvent × ℕ
  | 0, _, _, errs => ([MotorEvent.log_summary errs], errs)
  | iters + 1, n, p, errs =>
    let s := motor_step start_z rand xyErr zErr n p
    let r := motor_run_aux start_z rand xyErr zErr iters (n + 1) s.1 (errs + s.2.1)
    (s.2.2 ++ r.1, r.2)

/-- Transcription of `MotorTestDlg.random_walk_thread` (lines 2764-2822):
counters start at zero, the walk starts at (0, 0, start_z), and the log ends
with the NUMBER OF ERRORS summary line. -/
def random_walk_thread (start_z : ℚ) (rand : ℕ → ℚ) (xyErr zErr : ℕ → ℕ)
    (iters : ℕ) : List MotorEvent × ℕ :=
  motor_run_aux start_z rand xyErr zErr iters 0 { x := 0, y := 0, z := start_z } 0

/-- The safety bounds required of every logged or commanded position:
|x| ≤ 600, |y| ≤ 600, 0 ≤ z ≤ 600. Events that carry no position satisfy
the predicate trivially. -/
def eventInBounds : MotorEvent → Prop
  | MotorEvent.log_pos x y z => |x| ≤ 600 ∧ |y| ≤ 600 ∧ 0 ≤ z ∧ z ≤ 600
  | MotorEvent.move_xy x y => |x| ≤ 600 ∧ |y| ≤ 600
  | MotorEvent.move_z z => 0 ≤ z ∧ z ≤ 600
  | _ => True

/-- The clamped-and-reset position of each iteration lies inside the safety
bounds, for any incoming position, whenever the starting z lies in
[0, 600]. -/
theorem clamp_z_nonneg (z : ℚ) : 0 ≤ clamp_z z := by
  unfold clamp_z
  split
  · exact le_refl 0
  · exact not_lt.mp (by assumption)

/-- The position kept after the range guard is always inside the safety
bounds, provided the clamped z is nonnegative and the starting z lies in
[0, 600]. -/
theorem guarded_pos_in_bounds (start_z x y z1 : ℚ) (hz1 : 0 ≤ z1)
    (h0 : 0 ≤ start_z) (h600 : start_z ≤ 600) :
    |(if 600 < |x| ∨ 600 < |y| ∨ 600 < z1 then
        ({ x := 0, y := 0, z := start_z } : WalkPos)
      else { x := x, y := y, z := z1 }).x| ≤ 600 ∧
    |(if 600 < |x| ∨ 600 < |y| ∨ 600 < z1 then
        ({ x := 0, y := 0, z := start_z } : WalkPos)
      else { x := x, y := y, z := z1 }).y| ≤ 600 ∧
    0 ≤ (if 600 < |x| ∨ 600 < |y| ∨ 600 < z1 then
        ({ x := 0, y := 0, z := start_z } : WalkPos)
      else { x := x, y := y, z := z1 }).z ∧
    (if 600 < |x| ∨ 600 < |y| ∨ 600 < z1 then
        ({ x := 0, y := 0, z := start_z } : WalkPos)
      else { x := x, y := y, z := z1 }).z ≤ 600 := by
  by_cases hout : 600 < |x| ∨ 600 < |y| ∨ 600 < z1
  · simp only [if_pos hout]
    refine ⟨?_, ?_, h0, h600⟩ <;> simp
  · simp only [if_neg hout]
    push_neg at hout
    exact ⟨hout.1, hout.2.1, hz1, hout.2.2⟩

theorem motor_step_pos_in_bounds (start_z : ℚ) (rand : ℕ → ℚ) (n : ℕ) (p : WalkPos)
    (h0 : 0 ≤ start_z) (h600 : start_z ≤ 600) :
    |(motor_step_pos start_z rand n p).x| ≤ 600 ∧
    |(motor_step_pos start_z rand n p).y| ≤ 600 ∧
    0 ≤ (motor_step_pos start_z rand n p).z ∧
    (motor_step_pos start_z rand n p).z ≤ 600 := by
  simp only [motor_step_pos]
  exact guarded_pos_in_bounds start_z _ _ _ (clamp_z_nonneg _) h0 h600

/-- All positions emitted by one iteration's events (the logged line and the
two move commands) are inside the safety bounds. -/
theorem motor_step_events_in_bounds (start_z : ℚ) (rand : ℕ → ℚ)
    (xyErr zErr : ℕ → ℕ) (n : ℕ) (p : WalkPos)
    (h0 : 0 ≤ start_z) (h600 : start_z ≤ 600) :
    ∀ e ∈ (motor_step start_z rand xyErr zErr n p).2.2, eventInBounds e := by
  intro e he
  obtain ⟨hx, hy, hz0, hz6⟩ := motor_step_pos_in_bounds start_z rand n p h0 h600
  by_cases h1 : 0 < xyErr n
  · simp only [motor_step, if_pos h1, List.mem_cons, List.not_mem_nil, or_false] at he
    rcases he with rfl | rfl | rfl
    · exact ⟨hx, hy, hz0, hz6⟩
    · exact ⟨hx, hy⟩
    · trivial
  · by_cases h2 : 0 < zErr n <;>
      simp only [motor_step, if_neg h1, if_pos, if_neg, h2, ite_true, ite_false,
        List.mem_cons, List.not_mem_nil, or_false] at he <;>
      rcases he with rfl | rfl | rfl | rfl <;>
      first
        | exact ⟨hx, hy, hz0, hz6⟩
        | exact ⟨hx, hy⟩
        | exact ⟨hz0, hz6⟩
        | trivial

/-- Every event of a run of the iteration loop satisfies the safety bounds
when the starting z does. -/
theorem motor_run_aux_in_bounds (start_z : ℚ) (rand : ℕ → ℚ) (xyErr zErr : ℕ → ℕ)
    (h0 : 0 ≤ start_z) (h600 : start_z ≤ 600) :
    ∀ iters n p errs,
      ∀ e ∈ (motor_run_aux start_z rand xyErr zErr iters n p errs).1,
        eventInBounds e := by
  intro iters
  induction iters with
  | zero =>
    intro n p errs e he
    simp only [motor_run_aux, List.mem_singleton] at he
    subst he
    trivial
  | succ iters ih =>
    intro n p errs e he
    simp only [motor_run_aux, List.mem_append] at he
    rcases he with he | he
    · exact motor_step_events_in_bounds start_z rand xyErr zErr n p h0 h600 e he
    · exact ih _ _ _ e he

/-- C4: for every motor-test run whose starting z lies in [0, 600], under any
random stream and any hardware error behaviour, every position written to
the log and every position commanded to the hardware satisfies |x| ≤ 600,
|y| ≤ 600 and 0 ≤ z ≤ 600: the z clamp and the out-of-range reset run before
the iteration's position is logged or sent. -/
theorem random_walk_positions_in_bounds (start_z : ℚ) (rand : ℕ → ℚ)
    (xyErr zErr : ℕ → ℕ) (iters : ℕ)
    (h0 : 0 ≤ start_z) (h600 : start_z ≤ 600) :
    ∀ e ∈ (random_walk_thread start_z rand xyErr zErr iters).1, eventInBounds e :=
  fun e he =>
    motor_run_aux_in_bounds start_z rand xyErr zErr h0 h600 iters 0
      { x := 0, y := 0, z := start_z } 0 e he

/-- Witness for C4: a one-iteration run from start z 300 with the constant
random stream 1/2 logs and commands the in-bounds position (0, 0). -/
theorem random_walk_positions_in_bounds_witness :
    eventInBounds (MotorEvent.move_xy 0 0) :=
  random_walk_positions_in_bounds 300 (fun _ => 1 / 2) (fun _ => 0) (fun _ => 0) 1
    (by norm_num) (by norm_num) (MotorEvent.move_xy 0 0)
    (by norm_num [random_walk_thread, motor_run_aux, motor_step, motor_step_pos,
      motor_step_dist, motor_step_z0, clamp_z])

/-- Helper predicate: is this log entry one of the two error outcome lines? -/
def is_error_entry : MotorEvent → Bool
  | MotorEvent.log_xy_error => true
  | MotorEvent.log_z_error => true
  | _ => false

/-- Helper predicate: is this log entry an outcome line (OK, XY error or
Z error)? -/
def is_outcome_entry : MotorEvent → Bool
  | MotorEvent.log_xy_error => true
  | MotorEvent.log_z_error => true
  | MotorEvent.log_ok => true
  | _ => false

/-- Each iteration's error-count increment equals the number of error
outcome lines the iteration writes. -/
theorem motor_step_error_count (start_z : ℚ) (rand : ℕ → ℚ) (xyErr zErr : ℕ → ℕ)
    (n : ℕ) (p : WalkPos) :
    (motor_step start_z rand xyErr zErr n p).2.2.countP is_error_entry =
      (motor_step start_z rand xyErr zErr n p).2.1 := by
  by_cases h1 : 0 < xyErr n
  · simp [motor_step, h1, is_error_entry, List.countP_cons, List.countP_nil]
  · by_cases h2 : 0 < zErr n <;>
      simp [motor_step, h1, h2, is_error_entry, List.countP_cons, List.countP_nil]

/-- The iteration loop's final error count is the accumulator plus the
number of error outcome lines in its trace, and the trace always ends with
the summary line carrying the final count. -/
theorem motor_run_aux_error_count (start_z : ℚ) (rand : ℕ → ℚ)
    (xyErr zErr : ℕ → ℕ) :
    ∀ iters n p errs,
      (motor_run_aux start_z rand xyErr zErr iters n p errs).2 =
        errs + (motor_run_aux start_z rand xyErr zErr iters n p errs).1.countP
          is_error_entry ∧
      (motor_run_aux start_z rand xyErr zErr iters n p errs).1.getLast? =
        some (MotorEvent.log_summary
          (motor_run_aux start_z rand xyErr zErr iters n p errs).2) := by
  intro iters
  induction iters with
  | zero =>
    intro n p errs
    constructor
    · simp [motor_run_aux, List.countP_cons, List.countP_nil, is_error_entry]
    · simp [motor_run_aux]
  | succ iters ih =>
    intro n p errs
    obtain ⟨ih1, ih2⟩ := ih (n + 1) (motor_step start_z rand xyErr zErr n p).1
      (errs + (motor_step start_z rand xyErr zErr n p).2.1)
    have hne : (motor_run_aux start_z rand xyErr zErr iters (n + 1)
        (motor_step start_z rand xyErr zErr n p).1
        (errs + (motor_step start_z rand xyErr zErr n p).2.1)).1 ≠ [] := by
      intro hnil
      rw [hnil] at ih2
      exact Option.noConfusion ih2
    constructor
    · simp only [motor_run_aux, List.countP_append,
        motor_step_error_count start_z rand xyErr zErr n p]
      omega
    · simp only [motor_run_aux]
      rw [List.getLast?_append_of_ne_nil _ hne]
      exact ih2

/-- C5: at the end of every motor-test run, under any random stream and any
hardware error behaviour, the error counter equals the number of log entries
whose outcome is an error line (XY-move or Z-move error), and the final
summary line of the log reports exactly that count. -/
theorem motor_error_count_matches_log (start_z : ℚ) (rand : ℕ → ℚ)
    (xyErr zErr : ℕ → ℕ) (iters : ℕ) :
    (random_walk_thread start_z rand xyErr zErr iters).2 =
      (random_walk_thread start_z rand xyErr zErr iters).1.countP is_error_entry ∧
    (random_walk_thread start_z rand xyErr zErr iters).1.getLast? =
      some (MotorEvent.log_summary
        (random_walk_thread start_z rand xyErr zErr iters).2) := by
  have h := motor_run_aux_error_count start_z rand xyErr zErr iters 0
    { x := 0, y := 0, z := start_z } 0
  simpa [random_walk_thread] using h

/-- C10: every motor-test iteration writes exactly one outcome line,
increments the error counter by at most one, and when the XY move reports an
error the Z move of that iteration is skipped entirely (no Z command is
issued). -/
theorem motor_iteration_single_outcome (start_z : ℚ) (rand : ℕ → ℚ)
    (xyErr zErr : ℕ → ℕ) (n : ℕ) (p : WalkPos) :
    (motor_step start_z rand xyErr zErr n p).2.2.countP is_outcome_entry = 1 ∧
    (motor_step start_z rand xyErr zErr n p).2.1 ≤ 1 ∧
    (0 < xyErr n → ∀ zc : ℚ,
      MotorEvent.move_z zc ∉ (motor_step start_z rand xyErr zErr n p).2.2) := by
  refine ⟨?_, ?_, ?_⟩
  · by_cases h1 : 0 < xyErr n
    · simp [motor_step, h1, is_outcome_entry, List.countP_cons, List.countP_nil]
    · by_cases h2 : 0 < zErr n <;>
        simp [motor_step, h1, h2, is_outcome_entry, List.countP_cons, List.countP_nil]
  · by_cases h1 : 0 < xyErr n
    · simp [motor_step, h1]
    · by_cases h2 : 0 < zErr n <;> simp [motor_step, h1, h2]
  · intro h1 zc
    simp [motor_step, h1]

/-- Witness for C10: with an XY error reported on iteration 0, no Z move is
commanded in that iteration. -/
theorem motor_iteration_single_outcome_witness :
    MotorEvent.move_z 300 ∉
      (motor_step 300 (fun _ => 1 / 2) (fun _ => 1) (fun _ => 0) 0
        { x := 0, y := 0, z := 300 }).2.2 :=
  (motor_iteration_single_outcome 300 (fun _ => 1 / 2) (fun _ => 1) (fun _ => 0) 0
    { x := 0, y := 0, z := 300 }).2.2 (by decide) 300

/-! ## Close and accept handling of the three run dialogs -/

/-- The busy-flag attribute names read by the close/accept handlers of the
three run dialogs. -/
inductive FlagName where
  | busy
  | approach_in_progress
  | test_in_progress
deriving DecidableEq

/-- What a close or accept request does to a dialog: close it, ignore the
request, or raise an uncaught AttributeError. -/
inductive CloseAction where
  | closed
  | ignored
  | raised
deriving DecidableEq

namespace StageCalibrationDlg

/-- The run-progress state of a `StageCalibrationDlg`: its `busy` flag
(set in `__init__`, `start_calibration_procedure`, `process_results` and
`calculate_stage_parameters`). -/
structure State where
  busy : Bool

/-- Attribute lookup on a `StageCalibrationDlg` instance, restricted to the
busy-flag namespace: only `busy` is ever assigned by this class. -/
def attr (s : State) : FlagName → Option Bool
  | FlagName.busy => some s.busy
  | _ => none

/-- `StageCalibrationDlg.closeEvent` (lines 658-662): accept the close event
only when not busy. -/
def closeEvent (s : State) : CloseAction :=
  match attr s FlagName.busy with
  | none => CloseAction.raised
  | some b => if b then CloseAction.ignored else CloseAction.closed

/-- `StageCalibrationDlg.accept` (lines 634-652): save the calibration and
close only when not busy; while busy the call does nothing. -/
def accept (s : State) : CloseAction :=
  match attr s FlagName.busy with
  | none => CloseAction.raised
  | some b => if b then CloseAction.ignored else CloseAction.closed

end StageCalibrationDlg

namespace ApproachDlg

/-- The run-progress state of an `ApproachDlg`: its `approach_in_progress`
flag (set in `__init__`, `approach_thread` and `finish_approach`). -/
structure State where
  approach_in_progress : Bool

/-- Attribute lookup on an `ApproachDlg` instance, restricted to the
busy-flag namespace: only `approach_in_progress` is ever assigned by this
class. -/
def attr (s : State) : FlagName → Option Bool
  | FlagName.approach_in_progress => some s.approach_in_progress
  | _ => none

/-- `ApproachDlg.closeEvent` (lines 2367-2371): accept the close event only
when no approach is in progress. -/
def closeEvent (s : State) : CloseAction :=
  match attr s FlagName.approach_in_progress with
  | none => CloseAction.raised
  | some b => if b then CloseAction.ignored else CloseAction.closed

/-- `ApproachDlg.accept` (lines 2373-2375): close only when no approach is
in progress. -/
def accept (s : State) : CloseAction :=
  match attr s FlagName.approach_in_progress with
  | none => CloseAction.raised
  | some b => if b then CloseAction.ignored else CloseAction.closed

end ApproachDlg

namespace MotorTestDlg

/-- The run-progress state of a `MotorTestDlg`: its `test_in_progress` flag
(set in `__init__`, `update_progress`, `abort_random_walk`, `test_finished`
and `random_walk_thread`). -/
structure State where
  test_in_progress : Bool

/-- Attribute lookup on a `MotorTestDlg` instance, restricted to the
busy-flag namespace: only `test_in_progress` is ever assigned by this class;
in particular `approach_in_progress` is never assigned anywhere in
`MotorTestDlg`, so reading it raises AttributeError. -/
def attr (s : State) : FlagName → Option Bool
  | FlagName.test_in_progress => some s.test_in_progress
  | _ => none

/-- `MotorTestDlg.closeEvent` (lines 2828-2832): accept the close event only
when no test is in progress. -/
def closeEvent (s : State) : CloseAction :=
  match attr s FlagName.test_in_progress with
  | none => CloseAction.raised
  | some b => if b then CloseAction.ignored else CloseAction.closed

/-- `MotorTestDlg.accept` (lines 2834-2836): the guard reads
`self.approach_in_progress` — an attribute this class never defines — so
every call raises AttributeError instead of reading `test_in_progress`. -/
def accept (s : State) : CloseAction :=
  match attr s FlagName.approach_in_progress with
  | none => CloseAction.raised
  | some b => if b then CloseAction.ignored else CloseAction.closed

end MotorTestDlg

/-- C6: evaluation of the close/accept handlers. The stage-calibration and
approach dialogs behave as the claim says (close requests ignored while the
run is in progress, handled normally otherwise), and so does the motor-test
close handler; but `MotorTestDlg.accept` reads the undefined attribute
`approach_in_progress` and raises AttributeError in both states — in
particular it does not close the dialog even when no test is in progress,
contradicting the claim for the motor-test dialog. -/
theorem dialog_close_accept_behaviour :
    StageCalibrationDlg.closeEvent { busy := true } = CloseAction.ignored ∧
    StageCalibrationDlg.closeEvent { busy := false } = CloseAction.closed ∧
    StageCalibrationDlg.accept { busy := true } = CloseAction.ignored ∧
    StageCalibrationDlg.accept { busy := false } = CloseAction.closed ∧
    ApproachDlg.closeEvent { approach_in_progress := true } = CloseAction.ignored ∧
    ApproachDlg.closeEvent { approach_in_progress := false } = CloseAction.closed ∧
    ApproachDlg.accept { approach_in_progress := true } = CloseAction.ignored ∧
    ApproachDlg.accept { approach_in_progress := false } = CloseAction.closed ∧
    MotorTestDlg.closeEvent { test_in_progress := true } = CloseAction.ignored ∧
    MotorTestDlg.closeEvent { test_in_progress := false } = CloseAction.closed ∧
    MotorTestDlg.accept { test_in_progress := false } = CloseAction.raised ∧
    MotorTestDlg.accept { test_in_progress := true } = CloseAction.raised := by
  refine ⟨rfl, rfl, rfl, rfl, rfl, rfl, rfl, rfl, rfl, rfl, rfl, rfl⟩

end SBEMimage
